import Mathlib

/-!
Verification development for the Alpaca trading plugin (src/index.ts).

The file shallowly embeds the gateway logic of `src/index.ts`:
the base-URL constants and the `AlpacaClient` request construction,
the JavaScript truthiness conventions the handlers rely on
(`if (x)` on strings and numbers, `x || d` defaulting),
the transport response handling of `AlpacaClient.trade` / `AlpacaClient.data`,
the order-payload construction of the `alpaca_place_order` and
`alpaca_place_crypto_order` handlers, the portfolio-history handler,
and the credential resolution of `getClient`.

JavaScript numbers are modelled as rationals (`Rat`); the serialization
`String(x)` performed at the payload boundary is taken as a parameter
`numStr : Rat → String`, universally quantified in every theorem, because
the digit rendering of IEEE doubles is irrelevant to all the claims here.
`encodeURIComponent` is likewise taken as a parameter `enc` where the
source applies it inside a path.
-/

-- ── Alpaca API URLs (src/index.ts lines 12-14) ──

def PAPER_TRADE_URL : String := "https://paper-api.alpaca.markets"

def LIVE_TRADE_URL : String := "https://api.alpaca.markets"

def DATA_URL : String := "https://data.alpaca.markets"

-- ── JavaScript conventions ──

/-- Truthiness of an optional string setting/argument: `if (s)` in JS is
true exactly when the value is present and non-empty. -/
def strTruthy : Option String → Bool
  | none => false
  | some s => !s.isEmpty

/-- JS `x || d` for an optional string: the default is used when `x` is
absent or empty. -/
def jsOrStr : Option String → String → String
  | none, d => d
  | some s, d => if s.isEmpty then d else s

/-- Truthiness of an optional numeric argument: `if (x)` in JS is true
exactly when the value is present and non-zero. -/
def numTruthy : Option Rat → Bool
  | none => false
  | some q => q != 0

/-- `String.prototype.toUpperCase()` for the ASCII ticker/pair symbols the
handlers apply it to. -/
def jsToUpper (s : String) : String := String.mk (s.data.map Char.toUpper)

instance {ε α : Type} [DecidableEq ε] [DecidableEq α] : DecidableEq (Except ε α) := fun a b =>
  match a, b with
  | Except.ok x, Except.ok y =>
    if h : x = y then isTrue (by rw [h]) else isFalse (by intro hc; cases hc; exact h rfl)
  | Except.error x, Except.error y =>
    if h : x = y then isTrue (by rw [h]) else isFalse (by intro hc; cases hc; exact h rfl)
  | Except.ok _, Except.error _ => isFalse (by intro hc; cases hc)
  | Except.error _, Except.ok _ => isFalse (by intro hc; cases hc)

-- ── Requests ──

/-- Order request body assembled by the order handlers; absent JS object
fields are `none`.  Numeric fields have already been serialized by
`String(...)` (the `numStr` parameter). -/
structure OrderPayload where
  symbol : String
  side : String
  qty : Option String
  notional : Option String
  type : String
  time_in_force : String
  limit_price : Option String
  stop_price : Option String
  trail_percent : Option String
  trail_price : Option String
  extended_hours : Option Bool
deriving DecidableEq

/-- Bodies that `AlpacaClient` methods send. -/
inductive ReqBody where
  | order (p : OrderPayload)
  | watchlistCreate (name : String) (symbols : List String)
  | watchlistAdd (symbol : String)
deriving DecidableEq

/-- An outbound HTTP request as built by the client: method, full URL and
the auth headers attached by `AlpacaClient.headers()`. -/
structure Request where
  method : String
  url : String
  headers : List (String × String)
  body : Option ReqBody
deriving DecidableEq

-- ── AlpacaClient (src/index.ts lines 132-260) ──

structure AlpacaClient where
  apiKey : String
  secretKey : String
  tradeUrl : String
  dataUrl : String
deriving DecidableEq

/-- `new AlpacaClient(apiKey, secretKey, paper)` (constructor, lines 138-143). -/
def mkClient (apiKey secretKey : String) (paper : Bool) : AlpacaClient :=
  ⟨apiKey, secretKey, if paper then PAPER_TRADE_URL else LIVE_TRADE_URL, DATA_URL⟩

namespace AlpacaClient

/-- `headers()` (lines 145-151). -/
def headersOf (c : AlpacaClient) : List (String × String) :=
  [("APCA-API-KEY-ID", c.apiKey), ("APCA-API-SECRET-KEY", c.secretKey),
   ("Content-Type", "application/json")]

/-- The request issued by `trade(method, path, body?)` before the response
is examined (lines 153-157): URL is `tradeUrl + path`. -/
def trade (c : AlpacaClient) (method path : String) (body : Option ReqBody) : Request :=
  ⟨method, c.tradeUrl ++ path, c.headersOf, body⟩

/-- Query-string rendering of `URLSearchParams` for the parameter lists the
source builds (pairs already filtered for truthiness by the caller). -/
def queryString (ps : List (String × String)) : String :=
  match ps with
  | [] => ""
  | _ => "?" ++ String.intercalate "&" (ps.map (fun kv => kv.1 ++ "=" ++ kv.2))

/-- The request issued by `data(path, params)` (lines 167-173): URL is
`dataUrl + path` with every truthy (non-empty) param set on the query
string; always a GET with the auth headers and no body. -/
def dataGet (c : AlpacaClient) (path : String) (params : List (String × String)) : Request :=
  ⟨"GET", c.dataUrl ++ path ++ queryString (params.filter (fun kv => !kv.2.isEmpty)),
   c.headersOf, none⟩

-- Trading-endpoint methods (paths verbatim from lines 182-259).

def getAccount (c : AlpacaClient) : Request :=
  c.trade "GET" "/v2/account" none

def getPositions (c : AlpacaClient) : Request :=
  c.trade "GET" "/v2/positions" none

def getPosition (enc : String → String) (c : AlpacaClient) (symbol : String) : Request :=
  c.trade "GET" ("/v2/positions/" ++ enc symbol) none

def closePosition (enc : String → String) (c : AlpacaClient) (symbol : String)
    (qty percentage : Option String) : Request :=
  c.trade "DELETE"
    ("/v2/positions/" ++ enc symbol ++
      queryString ((if strTruthy qty then [("qty", qty.getD "")] else []) ++
        (if strTruthy percentage then [("percentage", percentage.getD "")] else []))) none

def closeAllPositions (c : AlpacaClient) (cancelOrders : Bool) : Request :=
  c.trade "DELETE" ("/v2/positions?cancel_orders=" ++ (if cancelOrders then "true" else "false")) none

def getOrders (c : AlpacaClient) (status : String) (limit : Nat) : Request :=
  c.trade "GET" ("/v2/orders?status=" ++ status ++ "&limit=" ++ toString limit) none

def getOrder (c : AlpacaClient) (orderId : String) : Request :=
  c.trade "GET" ("/v2/orders/" ++ orderId) none

def placeOrder (c : AlpacaClient) (order : OrderPayload) : Request :=
  c.trade "POST" "/v2/orders" (some (ReqBody.order order))

def cancelOrder (c : AlpacaClient) (orderId : String) : Request :=
  c.trade "DELETE" ("/v2/orders/" ++ orderId) none

def cancelAllOrders (c : AlpacaClient) : Request :=
  c.trade "DELETE" "/v2/orders" none

def getClock (c : AlpacaClient) : Request :=
  c.trade "GET" "/v2/clock" none

def getCalendar (c : AlpacaClient) (start endArg : Option String) : Request :=
  c.trade "GET"
    ("/v2/calendar" ++
      queryString ((if strTruthy start then [("start", start.getD "")] else []) ++
        (if strTruthy endArg then [("end", endArg.getD "")] else []))) none

def getPortfolioHistory (c : AlpacaClient) (period timeframe : String) : Request :=
  c.trade "GET" ("/v2/account/portfolio/history?period=" ++ period ++ "&timeframe=" ++ timeframe) none

-- Market-data methods (lines 230-250).

def getSnapshot (enc : String → String) (c : AlpacaClient) (symbol : String) : Request :=
  c.dataGet ("/v2/stocks/" ++ enc symbol ++ "/snapshot") [("feed", "iex")]

def getSnapshots (c : AlpacaClient) (symbols : List String) : Request :=
  c.dataGet "/v2/stocks/snapshots" [("symbols", String.intercalate "," symbols), ("feed", "iex")]

def getBars (enc : String → String) (c : AlpacaClient) (symbol timeframe start : String)
    (endArg : Option String) (limit : String) : Request :=
  c.dataGet ("/v2/stocks/" ++ enc symbol ++ "/bars")
    ([("timeframe", timeframe), ("start", start), ("limit", limit),
      ("feed", "iex"), ("sort", "desc")] ++
      (match endArg with | some e => [("end", e)] | none => []))

def getCryptoSnapshot (enc : String → String) (c : AlpacaClient) (symbol : String) : Request :=
  c.dataGet ("/v1beta3/crypto/us/snapshots/" ++ enc symbol) []

-- Watchlist methods (lines 253-259).

def getWatchlists (c : AlpacaClient) : Request :=
  c.trade "GET" "/v2/watchlists" none

def createWatchlist (c : AlpacaClient) (name : String) (symbols : List String) : Request :=
  c.trade "POST" "/v2/watchlists" (some (ReqBody.watchlistCreate name symbols))

def getWatchlist (c : AlpacaClient) (id : String) : Request :=
  c.trade "GET" ("/v2/watchlists/" ++ id) none

def addToWatchlist (c : AlpacaClient) (id : String) (symbol : String) : Request :=
  c.trade "POST" ("/v2/watchlists/" ++ id) (some (ReqBody.watchlistAdd symbol))

def deleteWatchlist (c : AlpacaClient) (id : String) : Request :=
  c.trade "DELETE" ("/v2/watchlists/" ++ id) none

end AlpacaClient

-- ── Transport response handling (src/index.ts lines 153-179) ──

/-- An upstream HTTP response: status code and raw body text. -/
structure HttpResponse where
  status : Nat
  body : String
deriving DecidableEq

/-- `Response.ok` of the fetch API: status in the range 200-299. -/
def resOk (r : HttpResponse) : Bool :=
  200 ≤ r.status && r.status < 300

/-- Successful outcome of `trade`: either the empty object returned for a
204, or the JSON body (deserialization deferred; the raw text is carried). -/
inductive TradeResult where
  | empty : TradeResult
  | json (body : String) : TradeResult
deriving DecidableEq

/-- Response handling of `trade` (lines 158-164): non-2xx throws
`Alpaca ${status}: ${text}` with the body verbatim; 204 returns the empty
object; otherwise the JSON body is returned. -/
def tradeResponse (r : HttpResponse) : Except String TradeResult :=
  if !resOk r then
    Except.error ("Alpaca " ++ toString r.status ++ ": " ++ r.body)
  else if r.status == 204 then
    Except.ok TradeResult.empty
  else
    Except.ok (TradeResult.json r.body)

/-- One execution of `trade` against a queue of responses the server would
return on successive fetches.  The source performs exactly one `fetch` and
has no retry construct, so exactly the head response is consumed; the
second component counts the fetches issued.  An empty queue models a
network failure (the fetch promise rejecting) before any response. -/
def tradeRun : List HttpResponse → Except String TradeResult × Nat
  | [] => (Except.error "TransportError", 0)
  | r :: _ => (tradeResponse r, 1)

/-- Response handling of `data` (lines 173-178): non-2xx throws
`Alpaca Data ${status}: ${text}`; otherwise the JSON body is returned
(no 204 branch exists on the data path). -/
def dataResponse (r : HttpResponse) : Except String String :=
  if !resOk r then
    Except.error ("Alpaca Data " ++ toString r.status ++ ": " ++ r.body)
  else
    Except.ok r.body

/-- One execution of `data` against a response queue; exactly one fetch,
no retries, as in `tradeRun`. -/
def dataRun : List HttpResponse → Except String String × Nat
  | [] => (Except.error "TransportError", 0)
  | r :: _ => (dataResponse r, 1)

-- ── Settings and credential resolution (src/index.ts lines 267-278) ──

/-- Plugin settings as read by `ctx.getSetting`; `none` models an
unconfigured setting. -/
structure Settings where
  alpacaApiKey : Option String
  alpacaSecretKey : Option String
  tradingMode : Option String
deriving DecidableEq

/-- The message of the error thrown by `getClient` when credentials are
missing (line 270); this is the ConfigurationError of the spec. -/
def credsMsg : String := "Alpaca API credentials not configured. Set them in plugin settings."

/-- The message of the validation error returned by the crypto order
handler (line 650); this is the ValidationError of the spec. -/
def qtyNotionalMsg : String := "Either qty or notional is required."

/-- `getClient()` (lines 267-273): throws when the api key or secret is
missing or empty (`!apiKey || !secretKey`), otherwise builds a client whose
paper flag is `(tradingMode || "paper") === "paper"`. -/
def getClient (s : Settings) : Except String AlpacaClient :=
  if strTruthy s.alpacaApiKey && strTruthy s.alpacaSecretKey then
    Except.ok (mkClient (s.alpacaApiKey.getD "") (s.alpacaSecretKey.getD "")
      (jsOrStr s.tradingMode "paper" == "paper"))
  else
    Except.error credsMsg

/-- `modeLabel()` (lines 275-278). -/
def modeLabel (s : Settings) : String :=
  if jsOrStr s.tradingMode "paper" == "paper" then "PAPER" else "LIVE"

-- ── Order payload construction ──

/-- Arguments of the `alpaca_place_order` tool (equity).  Numeric
arguments are optional rationals; `symbol` and `qty` are required by the
input schema and the handler dereferences them unconditionally. -/
structure EquityArgs where
  symbol : String
  side : Option String
  qty : Rat
  order_type : Option String
  limit_price : Option Rat
  stop_price : Option Rat
  trail_percent : Option Rat
  trail_price : Option Rat
  time_in_force : Option String
  extended_hours : Bool
deriving DecidableEq

/-- Payload construction of the `alpaca_place_order` handler
(lines 592-603).  Every optional price/trail field is included exactly
when the argument is truthy; the handler performs no validation and never
rejects a spec. -/
def buildEquityOrder (numStr : Rat → String) (a : EquityArgs) : OrderPayload :=
  { symbol := jsToUpper a.symbol
    side := jsOrStr a.side "buy"
    qty := some (numStr a.qty)
    notional := none
    type := jsOrStr a.order_type "market"
    time_in_force := jsOrStr a.time_in_force "day"
    limit_price := match a.limit_price with
      | some p => if p != 0 then some (numStr p) else none
      | none => none
    stop_price := match a.stop_price with
      | some p => if p != 0 then some (numStr p) else none
      | none => none
    trail_percent := match a.trail_percent with
      | some p => if p != 0 then some (numStr p) else none
      | none => none
    trail_price := match a.trail_price with
      | some p => if p != 0 then some (numStr p) else none
      | none => none
    extended_hours := if a.extended_hours then some true else none }

/-- Arguments of the `alpaca_place_crypto_order` tool. -/
structure CryptoArgs where
  symbol : String
  side : String
  qty : Option Rat
  notional : Option Rat
  order_type : Option String
  limit_price : Option Rat
  time_in_force : Option String
deriving DecidableEq

/-- Payload construction of the `alpaca_place_crypto_order` handler
(lines 642-652): `if (args.qty) ... else if (args.notional) ... else err`.
A truthy `qty` wins and `notional` is then ignored; the handler errors only
when neither is truthy. -/
def buildCryptoOrder (numStr : Rat → String) (a : CryptoArgs) : Except String OrderPayload :=
  let base : OrderPayload :=
    { symbol := jsToUpper a.symbol
      side := a.side
      qty := none
      notional := none
      type := jsOrStr a.order_type "market"
      time_in_force := jsOrStr a.time_in_force "gtc"
      limit_price := match a.limit_price with
        | some p => if p != 0 then some (numStr p) else none
        | none => none
      stop_price := none
      trail_percent := none
      trail_price := none
      extended_hours := none }
  if numTruthy a.qty then
    Except.ok { base with qty := some (numStr (a.qty.getD 0)) }
  else if numTruthy a.notional then
    Except.ok { base with notional := some (numStr (a.notional.getD 0)) }
  else
    Except.error qtyNotionalMsg

-- ── Per-operation pipelines: credential resolution, then the request ──
-- Each mirrors a tool handler up to the point the outbound request is
-- built.  `Except.error` means the operation failed before any transport
-- call: a request value exists only in the `Except.ok` case, so an error
-- result carries zero outbound requests by construction.

def opAccount (s : Settings) : Except String Request :=
  Except.map AlpacaClient.getAccount (getClient s)

def opPositions (s : Settings) : Except String Request :=
  Except.map AlpacaClient.getPositions (getClient s)

def opGetPosition (enc : String → String) (s : Settings) (symbol : String) :
    Except String Request :=
  Except.map (fun c => AlpacaClient.getPosition enc c symbol) (getClient s)

def opClosePosition (enc : String → String) (s : Settings) (symbol : String)
    (qty percentage : Option String) : Except String Request :=
  Except.map (fun c => AlpacaClient.closePosition enc c symbol qty percentage) (getClient s)

def opCloseAllPositions (s : Settings) (cancelOrders : Bool) : Except String Request :=
  Except.map (fun c => AlpacaClient.closeAllPositions c cancelOrders) (getClient s)

def opOrders (s : Settings) (status : String) (limit : Nat) : Except String Request :=
  Except.map (fun c => AlpacaClient.getOrders c status limit) (getClient s)

def opGetOrder (s : Settings) (orderId : String) : Except String Request :=
  Except.map (fun c => AlpacaClient.getOrder c orderId) (getClient s)

/-- `alpaca_place_order` (lines 590-605): the payload is built without any
validation, then `getClient().placeOrder(order)` runs. -/
def opPlaceOrder (numStr : Rat → String) (s : Settings) (a : EquityArgs) :
    Except String Request :=
  Except.map (fun c => AlpacaClient.placeOrder c (buildEquityOrder numStr a)) (getClient s)

/-- `alpaca_place_crypto_order` (lines 640-654): the payload is built and
validated first — `return err(...)` fires before `getClient()` is ever
called — then `getClient().placeOrder(order)` runs. -/
def opPlaceCryptoOrder (numStr : Rat → String) (s : Settings) (a : CryptoArgs) :
    Except String Request :=
  (buildCryptoOrder numStr a).bind (fun p =>
    Except.map (fun c => AlpacaClient.placeOrder c p) (getClient s))

/-- `alpaca_cancel_order` (lines 715-727): a truthy `order_id` takes the
single-order path, otherwise the bulk cancel-all path. -/
def opCancelOrder (s : Settings) (order_id : Option String) : Except String Request :=
  Except.map (fun c =>
    if strTruthy order_id then AlpacaClient.cancelOrder c (order_id.getD "")
    else AlpacaClient.cancelAllOrders c) (getClient s)

def opClock (s : Settings) : Except String Request :=
  Except.map AlpacaClient.getClock (getClient s)

def opCalendar (s : Settings) (start endArg : Option String) : Except String Request :=
  Except.map (fun c => AlpacaClient.getCalendar c start endArg) (getClient s)

def opPortfolioHistory (s : Settings) (period timeframe : String) : Except String Request :=
  Except.map (fun c => AlpacaClient.getPortfolioHistory c period timeframe) (getClient s)

def opSnapshot (enc : String → String) (s : Settings) (symbol : String) :
    Except String Request :=
  Except.map (fun c => AlpacaClient.getSnapshot enc c symbol) (getClient s)

def opSnapshots (s : Settings) (symbols : List String) : Except String Request :=
  Except.map (fun c => AlpacaClient.getSnapshots c symbols) (getClient s)

def opBars (enc : String → String) (s : Settings) (symbol timeframe start : String)
    (endArg : Option String) (limit : String) : Except String Request :=
  Except.map (fun c => AlpacaClient.getBars enc c symbol timeframe start endArg limit) (getClient s)

def opCryptoSnapshot (enc : String → String) (s : Settings) (symbol : String) :
    Except String Request :=
  Except.map (fun c => AlpacaClient.getCryptoSnapshot enc c symbol) (getClient s)

def opWatchlists (s : Settings) : Except String Request :=
  Except.map AlpacaClient.getWatchlists (getClient s)

def opCreateWatchlist (s : Settings) (name : String) (symbols : List String) :
    Except String Request :=
  Except.map (fun c => AlpacaClient.createWatchlist c name symbols) (getClient s)

def opGetWatchlist (s : Settings) (id : String) : Except String Request :=
  Except.map (fun c => AlpacaClient.getWatchlist c id) (getClient s)

def opAddToWatchlist (s : Settings) (id : String) (symbol : String) : Except String Request :=
  Except.map (fun c => AlpacaClient.addToWatchlist c id symbol) (getClient s)

def opDeleteWatchlist (s : Settings) (id : String) : Except String Request :=
  Except.map (fun c => AlpacaClient.deleteWatchlist c id) (getClient s)

-- ── Portfolio-history handler (src/index.ts lines 374-409) ──

/-- Upstream portfolio-history payload: four parallel arrays plus the base
value.  Timestamps are epoch seconds (integers); monetary values are
modelled as rationals. -/
structure PortfolioHistory where
  timestamp : List Int
  equity : List Rat
  profit_loss : List Rat
  profit_loss_pct : List Rat
  base_value : Rat
deriving DecidableEq

/-- The values the `alpaca_portfolio_history` handler reads from the
payload to render its report: `latest` is `equity[count-1]` (line 385),
`earliest` is `equity[0]`, `totalPL` is `profit_loss.reduce((a,b) => a+b, 0)`
and `points` are the last `min 5 count` rows
`(timestamp[i], equity[i], profit_loss[i])`.  The `Option` typing mirrors
that each array read may be JS `undefined`; a report is only ever emitted
when every formatted read was defined (see `portfolioHistoryHandler`). -/
structure HistReport where
  baseValue : Rat
  latest : Option Rat
  earliest : Option Rat
  totalPL : Rat
  points : List (Option Int × Option Rat × Option Rat)
deriving DecidableEq

inductive HistOutcome where
  | noHistory : HistOutcome
  | report (r : HistReport) : HistOutcome
  | typeError : HistOutcome
deriving DecidableEq

/-- Whether every array read the handler passes to `formatMoney` is
defined: `equity[count-1]` (line 393) and, for each of the last
`min 5 count` indices, `equity[i]` and `profit_loss[i]` (line 404).
Exactly when one of these reads is `undefined`, `formatMoney` throws. -/
def historyReadsDefined (hist : PortfolioHistory) : Bool :=
  (hist.equity.get? (hist.timestamp.length - 1)).isSome &&
  (List.range (min 5 hist.timestamp.length)).all (fun j =>
    (hist.equity.get? (hist.timestamp.length - min 5 hist.timestamp.length + j)).isSome &&
    (hist.profit_loss.get? (hist.timestamp.length - min 5 hist.timestamp.length + j)).isSome)

/-- The `alpaca_portfolio_history` handler after a successful fetch
(lines 380-408), including its catch block.  Both explicit branches call
`ok(...)`, but `formatMoney(undefined)` throws a TypeError
(`undefined.toLocaleString`), so an out-of-range read that gets formatted
— `equity[count-1]` at line 393, or `equity[i]`/`profit_loss[i]` in the
last-`min 5 count` loop at line 404 — aborts into the catch, which
returns `err(e.message)`: modelled as the `typeError` outcome with
`isError = true`.  Reads used only arithmetically do not throw
(`earliest` feeds `totalReturn`, whose NaN renders via `toFixed`), and
the handler never compares the four array lengths itself: reads beyond
`timestamp.length - 1` simply never happen, so over-long `equity` or
`profit_loss` arrays and a diverging `profit_loss_pct` (never read at
all) go unnoticed. -/
def portfolioHistoryHandler (hist : PortfolioHistory) : HistOutcome × Bool :=
  if hist.timestamp.length == 0 then
    (HistOutcome.noHistory, false)
  else
    let count := hist.timestamp.length
    let tail := min 5 count
    if historyReadsDefined hist then
      (HistOutcome.report
        { baseValue := hist.base_value
          latest := hist.equity.get? (count - 1)
          earliest := hist.equity.get? 0
          totalPL := hist.profit_loss.foldl (fun a b => a + b) 0
          points := (List.range tail).map (fun j =>
            (hist.timestamp.get? (count - tail + j),
             hist.equity.get? (count - tail + j),
             hist.profit_loss.get? (count - tail + j))) }, false)
    else
      (HistOutcome.typeError, true)

-- ── Tool results and two representative handlers ──

/-- A tool result: the `isError` flag and the text content, as produced by
the `ok`/`err` helpers (lines 122-128). -/
structure ToolResult where
  isError : Bool
  text : String
deriving DecidableEq

def ok (text : String) : ToolResult := ⟨false, text⟩

def err (text : String) : ToolResult := ⟨true, text⟩

/-- The `alpaca_account` handler (lines 311-333) over a response queue.
`render` stands for the success-path formatting (lines 315-331), which
interpolates `modeLabel()` and the fetched account body; every failure —
the `getClient` throw or a transport/remote error — lands in the catch
block, which returns `err(e.message)` with no mode label. -/
def accountHandler (render : String → String → String) (s : Settings)
    (rs : List HttpResponse) : ToolResult :=
  match getClient s with
  | Except.error m => err m
  | Except.ok _ =>
    match (tradeRun rs).1 with
    | Except.error m => err m
    | Except.ok TradeResult.empty => ok (render (modeLabel s) "")
    | Except.ok (TradeResult.json b) => ok (render (modeLabel s) b)

/-- The `alpaca_cancel_order` handler (lines 715-727) over a response
queue: success messages carry `[PAPER]`/`[LIVE]` via `modeLabel()`, the
catch block returns `err(e.message)` with no mode label. -/
def cancelOrderHandler (s : Settings) (order_id : Option String)
    (rs : List HttpResponse) : ToolResult :=
  match getClient s with
  | Except.error m => err m
  | Except.ok _ =>
    match (tradeRun rs).1 with
    | Except.error m => err m
    | Except.ok _ =>
      if strTruthy order_id then
        ok ("Order " ++ order_id.getD "" ++ " cancelled [" ++ modeLabel s ++ "]")
      else
        ok ("All open orders cancelled [" ++ modeLabel s ++ "]")

-- ── Helper definitions for concrete witnesses/counterexamples ──

/-- The dispatch of the `alpaca_cancel_order` handler (lines 718-723):
truthy `order_id` takes the single-order path, otherwise cancel-all. -/
def cancelOrderDispatch (c : AlpacaClient) (order_id : Option String) : Request :=
  if strTruthy order_id then AlpacaClient.cancelOrder c (order_id.getD "")
  else AlpacaClient.cancelAllOrders c

/-- Whether an `Except` computation succeeded. -/
def isOkE {ε α : Type} : Except ε α → Bool
  | Except.ok _ => true
  | Except.error _ => false

/-- A concrete number serializer standing for JS `String(x)` in witnesses. -/
def ratStr : Rat → String := fun q => toString q

/-- The rational one half (the `0.5` of the spec example), given in lowest
terms so that kernel evaluation works. -/
def half : Rat := ⟨1, 2, by decide, by decide⟩

/-- The 422 body of the spec example. -/
def insufficientQtyBody : String := "\x7b\"message\":\"insufficient qty\"\x7d"

/-- A concrete success-path renderer standing for the account formatting. -/
def render0 : String → String → String := fun m b => m ++ b

-- ── Helper lemmas ──

/-- The two trading base URLs have different lengths, so appending the same
path can never make the full URLs coincide. -/
theorem paper_live_append_ne (path : String) :
    (PAPER_TRADE_URL ++ path) ≠ (LIVE_TRADE_URL ++ path) := by
  intro h
  have hlen := congrArg String.length h
  rw [String.length_append, String.length_append] at hlen
  have h2 : PAPER_TRADE_URL.length = LIVE_TRADE_URL.length := Nat.add_right_cancel hlen
  have h3 : PAPER_TRADE_URL.length ≠ LIVE_TRADE_URL.length := by decide
  exact h3 h2

/-- A trading request built by `trade` has different full URLs under the
paper and the live client, for any method, path and body. -/
theorem trade_url_ne (k sk m path : String) (b : Option ReqBody) :
    (AlpacaClient.trade (mkClient k sk true) m path b).url ≠
      (AlpacaClient.trade (mkClient k sk false) m path b).url := by
  show (PAPER_TRADE_URL ++ path) ≠ (LIVE_TRADE_URL ++ path)
  exact paper_live_append_ne path

-- ── Claims ──

/-- Claim C3 (confirmed): every market-data operation (stock snapshot,
multi-symbol snapshots, bars, crypto snapshot) routes to the single shared
market-data base URL in both modes: the client's `dataUrl` is `DATA_URL`
regardless of the paper flag, and the full outbound request (URL included)
is identical under paper and under live. -/
theorem c3_market_data_shared_url (enc : String → String)
    (k sk symbol timeframe start limit : String) (symbols : List String)
    (endArg : Option String) (b : Bool) :
    (mkClient k sk b).dataUrl = DATA_URL ∧
    AlpacaClient.getSnapshot enc (mkClient k sk true) symbol =
      AlpacaClient.getSnapshot enc (mkClient k sk false) symbol ∧
    AlpacaClient.getSnapshots (mkClient k sk true) symbols =
      AlpacaClient.getSnapshots (mkClient k sk false) symbols ∧
    AlpacaClient.getBars enc (mkClient k sk true) symbol timeframe start endArg limit =
      AlpacaClient.getBars enc (mkClient k sk false) symbol timeframe start endArg limit ∧
    AlpacaClient.getCryptoSnapshot enc (mkClient k sk true) symbol =
      AlpacaClient.getCryptoSnapshot enc (mkClient k sk false) symbol := by
  refine ⟨?_, rfl, rfl, rfl, rfl⟩
  cases b <;> rfl

/-- Claim C3 witness at concrete inputs. -/
theorem c3_witness :
    AlpacaClient.getSnapshot (fun s => s) (mkClient "k" "sk" true) "AAPL" =
      AlpacaClient.getSnapshot (fun s => s) (mkClient "k" "sk" false) "AAPL" :=
  (c3_market_data_shared_url (fun s => s) "k" "sk" "AAPL" "1Day" "2024-01-01" "50"
    ["AAPL"] none true).2.1

/-- Claim C4 (confirmed): every trading operation (account, positions,
orders, clock, calendar, portfolio history, watchlists) targets a
different base URL under paper than under live: the client's `tradeUrl`
differs between the modes, and each operation's full outbound URL differs
as well. -/
theorem c4_trading_urls_distinct (k sk : String) (enc : String → String)
    (symbol status orderId period timeframe id name : String) (limit : Nat)
    (qty percentage start endArg : Option String) (cancelOrders : Bool)
    (p : OrderPayload) (symbols : List String) :
    (mkClient k sk true).tradeUrl ≠ (mkClient k sk false).tradeUrl ∧
    (AlpacaClient.getAccount (mkClient k sk true)).url ≠
      (AlpacaClient.getAccount (mkClient k sk false)).url ∧
    (AlpacaClient.getPositions (mkClient k sk true)).url ≠
      (AlpacaClient.getPositions (mkClient k sk false)).url ∧
    (AlpacaClient.getPosition enc (mkClient k sk true) symbol).url ≠
      (AlpacaClient.getPosition enc (mkClient k sk false) symbol).url ∧
    (AlpacaClient.closePosition enc (mkClient k sk true) symbol qty percentage).url ≠
      (AlpacaClient.closePosition enc (mkClient k sk false) symbol qty percentage).url ∧
    (AlpacaClient.closeAllPositions (mkClient k sk true) cancelOrders).url ≠
      (AlpacaClient.closeAllPositions (mkClient k sk false) cancelOrders).url ∧
    (AlpacaClient.getOrders (mkClient k sk true) status limit).url ≠
      (AlpacaClient.getOrders (mkClient k sk false) status limit).url ∧
    (AlpacaClient.getOrder (mkClient k sk true) orderId).url ≠
      (AlpacaClient.getOrder (mkClient k sk false) orderId).url ∧
    (AlpacaClient.placeOrder (mkClient k sk true) p).url ≠
      (AlpacaClient.placeOrder (mkClient k sk false) p).url ∧
    (AlpacaClient.cancelOrder (mkClient k sk true) orderId).url ≠
      (AlpacaClient.cancelOrder (mkClient k sk false) orderId).url ∧
    (AlpacaClient.cancelAllOrders (mkClient k sk true)).url ≠
      (AlpacaClient.cancelAllOrders (mkClient k sk false)).url ∧
    (AlpacaClient.getClock (mkClient k sk true)).url ≠
      (AlpacaClient.getClock (mkClient k sk false)).url ∧
    (AlpacaClient.getCalendar (mkClient k sk true) start endArg).url ≠
      (AlpacaClient.getCalendar (mkClient k sk false) start endArg).url ∧
    (AlpacaClient.getPortfolioHistory (mkClient k sk true) period timeframe).url ≠
      (AlpacaClient.getPortfolioHistory (mkClient k sk false) period timeframe).url ∧
    (AlpacaClient.getWatchlists (mkClient k sk true)).url ≠
      (AlpacaClient.getWatchlists (mkClient k sk false)).url ∧
    (AlpacaClient.createWatchlist (mkClient k sk true) name symbols).url ≠
      (AlpacaClient.createWatchlist (mkClient k sk false) name symbols).url ∧
    (AlpacaClient.getWatchlist (mkClient k sk true) id).url ≠
      (AlpacaClient.getWatchlist (mkClient k sk false) id).url ∧
    (AlpacaClient.addToWatchlist (mkClient k sk true) id symbol).url ≠
      (AlpacaClient.addToWatchlist (mkClient k sk false) id symbol).url ∧
    (AlpacaClient.deleteWatchlist (mkClient k sk true) id).url ≠
      (AlpacaClient.deleteWatchlist (mkClient k sk false) id).url :=
  ⟨show PAPER_TRADE_URL ≠ LIVE_TRADE_URL by decide,
   trade_url_ne k sk _ _ _, trade_url_ne k sk _ _ _, trade_url_ne k sk _ _ _,
   trade_url_ne k sk _ _ _, trade_url_ne k sk _ _ _, trade_url_ne k sk _ _ _,
   trade_url_ne k sk _ _ _, trade_url_ne k sk _ _ _, trade_url_ne k sk _ _ _,
   trade_url_ne k sk _ _ _, trade_url_ne k sk _ _ _, trade_url_ne k sk _ _ _,
   trade_url_ne k sk _ _ _, trade_url_ne k sk _ _ _, trade_url_ne k sk _ _ _,
   trade_url_ne k sk _ _ _, trade_url_ne k sk _ _ _, trade_url_ne k sk _ _ _⟩

/-- Claim C4 witness at concrete inputs: `getAccount` under paper and under
live targets different URLs. -/
theorem c4_witness :
    (AlpacaClient.getAccount (mkClient "k" "sk" true)).url ≠
      (AlpacaClient.getAccount (mkClient "k" "sk" false)).url :=
  (c4_trading_urls_distinct "k" "sk" (fun s => s) "AAPL" "open" "oid" "1M" "1D" "wid" "wl"
    50 none none none none true
    ⟨"AAPL", "buy", some "1", none, "market", "day", none, none, none, none, none⟩
    ["AAPL"]).2.1

/-- Claim C6 (confirmed): for every request and every non-2xx upstream
response, both transport paths (`trade` and `data`) fail with an error
whose message carries the HTTP status and the response body verbatim —
`Alpaca ${status}: ${text}` resp. `Alpaca Data ${status}: ${text}` — and
exactly one fetch is consumed no matter how many responses the server
would still provide: there is no retry. -/
theorem c6_remote_error_verbatim (r : HttpResponse) (rest : List HttpResponse)
    (h : resOk r = false) :
    tradeRun (r :: rest) =
      (Except.error ("Alpaca " ++ toString r.status ++ ": " ++ r.body), 1) ∧
    dataRun (r :: rest) =
      (Except.error ("Alpaca Data " ++ toString r.status ++ ": " ++ r.body), 1) := by
  constructor <;> simp [tradeRun, dataRun, tradeResponse, dataResponse, h]

/-- Claim C6 witness: a 422 with body `{"message":"insufficient qty"}`
surfaces as the error `Alpaca 422: {"message":"insufficient qty"}` —
status 422 and the message text unmodified — after exactly one fetch. -/
theorem c6_witness :
    tradeRun [⟨422, insufficientQtyBody⟩] =
      (Except.error ("Alpaca 422: " ++ insufficientQtyBody), 1) := by
  have h := (c6_remote_error_verbatim ⟨422, insufficientQtyBody⟩ [] (by decide)).1
  rw [h]
  decide

/-- Claim C7 (confirmed): a 204 No Content upstream response makes `trade`
return the empty successful result — not an error and not a JSON parse
attempt (the `res.json()` branch is never reached) — in one fetch. -/
theorem c7_no_content_empty (r : HttpResponse) (rest : List HttpResponse)
    (h : r.status = 204) :
    tradeRun (r :: rest) = (Except.ok TradeResult.empty, 1) := by
  cases r with
  | mk st b =>
    cases h
    simp [tradeRun, tradeResponse, resOk]

/-- Claim C7 witness: a concrete 204 response (as a cancel-order call
receives) yields the empty success result. -/
theorem c7_witness : tradeRun [⟨204, ""⟩] = (Except.ok TradeResult.empty, 1) :=
  c7_no_content_empty ⟨204, ""⟩ [] rfl

/-- Claim C10 (confirmed): when `order_id` is absent the cancel-order
handler takes the bulk path — a DELETE to `/v2/orders`, the cancel-all
request — rather than failing; the single-order path is taken only when
`order_id` is present (a non-bulk dispatch implies presence). -/
theorem c10_cancel_order_bulk (c : AlpacaClient) (order_id : Option String) :
    (order_id = none → cancelOrderDispatch c order_id = AlpacaClient.cancelAllOrders c) ∧
    (AlpacaClient.cancelAllOrders c).method = "DELETE" ∧
    (AlpacaClient.cancelAllOrders c).url = c.tradeUrl ++ "/v2/orders" ∧
    (cancelOrderDispatch c order_id ≠ AlpacaClient.cancelAllOrders c →
      order_id.isSome = true) := by
  refine ⟨?_, rfl, rfl, ?_⟩
  · intro h
    subst h
    rfl
  · intro h
    cases order_id with
    | none => exact absurd rfl h
    | some v => rfl

/-- Claim C10 witness: with `order_id` absent, the dispatch equals the bulk
cancel-all request, whose URL under the paper client is
`https://paper-api.alpaca.markets/v2/orders`. -/
theorem c10_witness :
    cancelOrderDispatch (mkClient "k" "sk" true) none =
      AlpacaClient.cancelAllOrders (mkClient "k" "sk" true) ∧
    (AlpacaClient.cancelAllOrders (mkClient "k" "sk" true)).url =
      (mkClient "k" "sk" true).tradeUrl ++ "/v2/orders" :=
  ⟨(c10_cancel_order_bulk (mkClient "k" "sk" true) none).1 rfl,
   (c10_cancel_order_bulk (mkClient "k" "sk" true) none).2.2.1⟩

/-- Claim C1 counterexample: the spec's crypto order
`{symbol:"BTC/USD", side:"buy", qty:0.5, notional:100}` — BOTH qty and
notional supplied — is NOT rejected with a ValidationError: the handler
takes the qty branch and builds an order payload (notional silently
dropped), refuting "fails ... when both quantity and notional are
supplied" and "accepts the spec only when exactly one of the two is
present". -/
theorem c1_counterexample :
    buildCryptoOrder ratStr ⟨"BTC/USD", "buy", some half, some 100, none, none, none⟩ =
      Except.ok
        { symbol := "BTC/USD", side := "buy", qty := some "1/2", notional := none,
          type := "market", time_in_force := "gtc", limit_price := none, stop_price := none,
          trail_percent := none, trail_price := none, extended_hours := none } := by
  decide

/-- Claim C1 (amended): the crypto order operation fails with the
ValidationError `Either qty or notional is required.` exactly when neither
qty nor notional is (truthy-)supplied, and it does so before any network
call — the validation runs before `getClient`, so the error is returned
whatever the credential settings.  When qty is supplied the payload
carries qty and omits notional, even if notional was also supplied (a
both-supplied spec is accepted with qty taking precedence); when only
notional is supplied the payload carries notional. -/
theorem c1_crypto_qty_notional_amended (numStr : Rat → String) (a : CryptoArgs) :
    (isOkE (buildCryptoOrder numStr a) = (numTruthy a.qty || numTruthy a.notional)) ∧
    ((numTruthy a.qty || numTruthy a.notional) = false →
      ∀ s : Settings, opPlaceCryptoOrder numStr s a = Except.error qtyNotionalMsg) ∧
    (numTruthy a.qty = true →
      ∃ p, buildCryptoOrder numStr a = Except.ok p ∧
        p.qty = some (numStr (a.qty.getD 0)) ∧ p.notional = none) ∧
    (numTruthy a.qty = false → numTruthy a.notional = true →
      ∃ p, buildCryptoOrder numStr a = Except.ok p ∧
        p.notional = some (numStr (a.notional.getD 0)) ∧ p.qty = none) := by
  refine ⟨?_, ?_, ?_, ?_⟩
  · cases hq : numTruthy a.qty <;> cases hn : numTruthy a.notional <;>
      simp [buildCryptoOrder, isOkE, hq, hn]
  · intro h s
    rw [Bool.or_eq_false_iff] at h
    simp [opPlaceCryptoOrder, buildCryptoOrder, h.1, h.2, Except.bind]
  · intro hq
    simp only [buildCryptoOrder, hq]
    exact ⟨_, rfl, rfl, rfl⟩
  · intro hq hn
    simp only [buildCryptoOrder, hq, hn]
    exact ⟨_, rfl, rfl, rfl⟩

/-- Claim C1 witness (for the amended claim): the spec's neither-supplied
example `{symbol:"BTC/USD", side:"buy"}` is rejected with the
ValidationError before any network call, with no credentials configured. -/
theorem c1_amended_witness :
    opPlaceCryptoOrder ratStr ⟨none, none, none⟩
      ⟨"BTC/USD", "buy", none, none, none, none, none⟩ =
      Except.error qtyNotionalMsg :=
  (c1_crypto_qty_notional_amended ratStr
    ⟨"BTC/USD", "buy", none, none, none, none, none⟩).2.1 (by decide) ⟨none, none, none⟩

/-- Settings with credentials configured, paper mode, for concrete runs. -/
def s0 : Settings := ⟨some "key", some "secret", some "paper"⟩

/-- Claim C2 counterexample: the invalid spec `{type: "trailing_stop"}`
with NEITHER trail_percent nor trail_price — which the claim says is
rejected — is accepted by the order-placement operation: the handler
performs no validation and issues the POST /v2/orders request. -/
theorem c2_counterexample :
    opPlaceOrder ratStr s0
      ⟨"AAPL", some "sell", 1, some "trailing_stop", none, none, none, none, none, false⟩ =
      Except.ok (AlpacaClient.placeOrder (mkClient "key" "secret" true)
        { symbol := "AAPL", side := "sell", qty := some "1", notional := none,
          type := "trailing_stop", time_in_force := "day", limit_price := none,
          stop_price := none, trail_percent := none, trail_price := none,
          extended_hours := none }) := by
  decide

/-- Claim C2 (amended): the order-placement operation performs no
type-specific validation at all — given configured credentials it accepts
every equity order spec, issuing the POST /v2/orders request built from
it; each of limit_price, stop_price, trail_percent and trail_price is
included in the payload exactly when that argument is (truthy-)supplied,
independent of the order type; validation of the type-specific field
rules is left entirely to the upstream brokerage. -/
theorem c2_equity_no_validation_amended (numStr : Rat → String) (s : Settings)
    (a : EquityArgs)
    (h : (strTruthy s.alpacaApiKey && strTruthy s.alpacaSecretKey) = true) :
    (∃ c, getClient s = Except.ok c ∧
      opPlaceOrder numStr s a =
        Except.ok (AlpacaClient.placeOrder c (buildEquityOrder numStr a))) ∧
    ((buildEquityOrder numStr a).limit_price.isSome = numTruthy a.limit_price) ∧
    ((buildEquityOrder numStr a).stop_price.isSome = numTruthy a.stop_price) ∧
    ((buildEquityOrder numStr a).trail_percent.isSome = numTruthy a.trail_percent) ∧
    ((buildEquityOrder numStr a).trail_price.isSome = numTruthy a.trail_price) := by
  refine ⟨?_, ?_, ?_, ?_, ?_⟩
  · refine ⟨mkClient (s.alpacaApiKey.getD "") (s.alpacaSecretKey.getD "")
      (jsOrStr s.tradingMode "paper" == "paper"), ?_, ?_⟩
    · simp only [getClient, h, if_true]
    · simp only [opPlaceOrder, getClient, h, if_true, Except.map]
  · cases hl : a.limit_price with
    | none => simp [buildEquityOrder, numTruthy, hl]
    | some p =>
      cases hb : (p != 0) <;> simp [buildEquityOrder, numTruthy, hl, hb]
  · cases hl : a.stop_price with
    | none => simp [buildEquityOrder, numTruthy, hl]
    | some p =>
      cases hb : (p != 0) <;> simp [buildEquityOrder, numTruthy, hl, hb]
  · cases hl : a.trail_percent with
    | none => simp [buildEquityOrder, numTruthy, hl]
    | some p =>
      cases hb : (p != 0) <;> simp [buildEquityOrder, numTruthy, hl, hb]
  · cases hl : a.trail_price with
    | none => simp [buildEquityOrder, numTruthy, hl]
    | some p =>
      cases hb : (p != 0) <;> simp [buildEquityOrder, numTruthy, hl, hb]

/-- Claim C2 witness (for the amended claim): a limit order with
limit_price 5 carries limit_price in the payload. -/
theorem c2_amended_witness :
    (buildEquityOrder ratStr
      ⟨"AAPL", some "buy", 1, some "limit", some 5, none, none, none, none, false⟩).limit_price.isSome =
      numTruthy (some (5 : Rat)) :=
  (c2_equity_no_validation_amended ratStr s0
    ⟨"AAPL", some "buy", 1, some "limit", some 5, none, none, none, none, false⟩
    (by decide)).2.1

/-- Claim C5 counterexample: with NO credentials configured, the crypto
order operation invoked with neither qty nor notional fails with the
ValidationError, not the ConfigurationError: the crypto handler's
validation runs before `getClient()` is called, so this operation does
not "fail with a ConfigurationError" as the claim states for every
operation (it still fails before any network call). -/
theorem c5_counterexample :
    opPlaceCryptoOrder ratStr ⟨none, none, none⟩
      ⟨"ETH/USD", "sell", none, none, none, none, none⟩ =
      Except.error qtyNotionalMsg ∧
    qtyNotionalMsg ≠ credsMsg := by
  constructor
  · decide
  · decide

/-- Claim C5 (amended): when no credential pair is configured
(`!apiKey || !secretKey`), every operation fails before any network call —
an error pipeline result carries no outbound request, so zero transport
calls are made — and the failure is the ConfigurationError of `getClient`
for every operation except the crypto order invoked with neither qty nor
notional, where the ValidationError takes precedence because the crypto
handler validates before resolving credentials. -/
theorem c5_config_failfast_amended (s : Settings)
    (h : (strTruthy s.alpacaApiKey && strTruthy s.alpacaSecretKey) = false) :
    getClient s = Except.error credsMsg ∧
    opAccount s = Except.error credsMsg ∧
    opPositions s = Except.error credsMsg ∧
    (∀ enc symbol, opGetPosition enc s symbol = Except.error credsMsg) ∧
    (∀ enc symbol qty percentage,
      opClosePosition enc s symbol qty percentage = Except.error credsMsg) ∧
    (∀ b, opCloseAllPositions s b = Except.error credsMsg) ∧
    (∀ status limit, opOrders s status limit = Except.error credsMsg) ∧
    (∀ oid, opGetOrder s oid = Except.error credsMsg) ∧
    (∀ numStr a, opPlaceOrder numStr s a = Except.error credsMsg) ∧
    (∀ oid, opCancelOrder s oid = Except.error credsMsg) ∧
    opClock s = Except.error credsMsg ∧
    (∀ start endArg, opCalendar s start endArg = Except.error credsMsg) ∧
    (∀ period timeframe, opPortfolioHistory s period timeframe = Except.error credsMsg) ∧
    (∀ enc symbol, opSnapshot enc s symbol = Except.error credsMsg) ∧
    (∀ symbols, opSnapshots s symbols = Except.error credsMsg) ∧
    (∀ enc symbol timeframe start endArg limit,
      opBars enc s symbol timeframe start endArg limit = Except.error credsMsg) ∧
    (∀ enc symbol, opCryptoSnapshot enc s symbol = Except.error credsMsg) ∧
    opWatchlists s = Except.error credsMsg ∧
    (∀ name symbols, opCreateWatchlist s name symbols = Except.error credsMsg) ∧
    (∀ id, opGetWatchlist s id = Except.error credsMsg) ∧
    (∀ id symbol, opAddToWatchlist s id symbol = Except.error credsMsg) ∧
    (∀ id, opDeleteWatchlist s id = Except.error credsMsg) ∧
    (∀ numStr a, opPlaceCryptoOrder numStr s a =
      (if numTruthy a.qty || numTruthy a.notional then Except.error credsMsg
       else Except.error qtyNotionalMsg)) := by
  have hg : getClient s = Except.error credsMsg := by
    simp only [getClient, h]
    rfl
  have hm : ∀ (f : AlpacaClient → Request),
      Except.map f (getClient s) = Except.error credsMsg := by
    intro f
    rw [hg]
    rfl
  refine ⟨hg, hm _, hm _, fun enc symbol => hm _, fun enc symbol qty percentage => hm _,
    fun b => hm _, fun status limit => hm _, fun oid => hm _, fun numStr a => hm _,
    fun oid => hm _, hm _, fun start endArg => hm _, fun period timeframe => hm _,
    fun enc symbol => hm _, fun symbols => hm _,
    fun enc symbol timeframe start endArg limit => hm _, fun enc symbol => hm _,
    hm _, fun name symbols => hm _, fun id => hm _, fun id symbol => hm _,
    fun id => hm _, ?_⟩
  intro numStr a
  cases hq : numTruthy a.qty <;> cases hn : numTruthy a.notional <;>
    simp [opPlaceCryptoOrder, buildCryptoOrder, hq, hn, hg, Except.bind, Except.map]

/-- Claim C5 witness (for the amended claim): with nothing configured, the
account operation fails with the ConfigurationError and issues no request. -/
theorem c5_amended_witness : opAccount ⟨none, none, none⟩ = Except.error credsMsg :=
  (c5_config_failfast_amended ⟨none, none, none⟩ (by decide)).2.1

/-- A diverging upstream payload the handler accepts silently: one
timestamp but TWO equity entries (and the genuine latest equity, 200, is
never read — the handler reports `equity[0]` = 100 as "Current Equity"). -/
def histDiverging : PortfolioHistory := ⟨[1], [100, 200], [0], [0], 100⟩

/-- An aligned upstream payload with one data point. -/
def histAligned : PortfolioHistory := ⟨[1], [100], [0], [0], 100⟩

/-- Claim C8 counterexample: two payloads whose four array lengths diverge
are NOT flagged by the portfolio-history operation.  With equity longer
than timestamp (`histDiverging`), every index the handler derives from
`timestamp.length` is in range, so no formatted read is `undefined`,
nothing throws, and a non-error report is silently produced (reporting a
stale `equity[0]` as the current equity); likewise a payload whose
`profit_loss_pct` array diverges is silently accepted because that array
is never read at all. -/
theorem c8_counterexample :
    portfolioHistoryHandler histDiverging =
      (HistOutcome.report
        { baseValue := 100, latest := some 100, earliest := some 100, totalPL := 0,
          points := [(some 1, some 100, some 0)] }, false) ∧
    (portfolioHistoryHandler ⟨[1], [100], [5], [], 100⟩).2 = false := by
  constructor
  · have hstep : portfolioHistoryHandler histDiverging =
        (HistOutcome.report
          { baseValue := 100, latest := some 100, earliest := some 100,
            totalPL := List.foldl (fun a b => a + b) 0 [0],
            points := [(some 1, some 100, some 0)] }, false) := rfl
    rw [hstep]
    norm_num
  · rfl

/-- Claim C8 (amended): the portfolio-history handler never compares the
four array lengths; every index it reads derives from `timestamp.length`
alone.  When the four arrays share one length and the series is
non-empty, every read is in range and the operation returns a non-error
report carrying all `min 5 count` rows plus latest/earliest equity
(nothing truncated).  A payload whose equity or profit_loss array is
SHORTER than timestamp does fail — not by a deliberate check, but because
the out-of-range read is `undefined` and `formatMoney(undefined)` throws
a TypeError that the catch turns into an error result.  A divergence the
derived indices never reach is NOT flagged: equity or profit_loss longer
than timestamp, or profit_loss_pct of any diverging length (never read),
silently produce a non-error report. -/
theorem c8_portfolio_history_amended (hist : PortfolioHistory) :
    (hist.equity.length = hist.timestamp.length →
     hist.profit_loss.length = hist.timestamp.length →
     hist.profit_loss_pct.length = hist.timestamp.length →
     hist.timestamp.length ≠ 0 →
     (portfolioHistoryHandler hist).2 = false ∧
     ∃ r, (portfolioHistoryHandler hist).1 = HistOutcome.report r ∧
       r.latest.isSome = true ∧ r.earliest.isSome = true ∧
       r.points.length = min 5 hist.timestamp.length ∧
       ∀ p ∈ r.points, p.1.isSome = true ∧ p.2.1.isSome = true ∧ p.2.2.isSome = true) ∧
    (hist.equity.length < hist.timestamp.length ∨
     hist.profit_loss.length < hist.timestamp.length →
     portfolioHistoryHandler hist = (HistOutcome.typeError, true)) := by
  have hsome : ∀ (l : List Rat) (i : Nat), i < l.length → (l.get? i).isSome = true := by
    intro l i hi
    rw [List.get?_eq_get hi]
    rfl
  have hsomeInt : ∀ (l : List Int) (i : Nat), i < l.length → (l.get? i).isSome = true := by
    intro l i hi
    rw [List.get?_eq_get hi]
    rfl
  have htail : min 5 hist.timestamp.length ≤ hist.timestamp.length := Nat.min_le_right 5 _
  constructor
  · intro heq hpl hppc hne
    have hcond : (hist.timestamp.length == 0) = false := by
      simp [hne]
    have hif : historyReadsDefined hist = true := by
      unfold historyReadsDefined
      rw [Bool.and_eq_true]
      refine ⟨hsome _ _ (by rw [heq]; omega), ?_⟩
      rw [List.all_eq_true]
      intro j hj
      rw [List.mem_range] at hj
      simp only [Bool.and_eq_true]
      exact ⟨hsome _ _ (by rw [heq]; omega), hsome _ _ (by rw [hpl]; omega)⟩
    constructor
    · simp [portfolioHistoryHandler, hcond, hif]
    · refine
        ⟨{ baseValue := hist.base_value
           latest := hist.equity.get? (hist.timestamp.length - 1)
           earliest := hist.equity.get? 0
           totalPL := hist.profit_loss.foldl (fun a b => a + b) 0
           points := (List.range (min 5 hist.timestamp.length)).map (fun j =>
             (hist.timestamp.get? (hist.timestamp.length - min 5 hist.timestamp.length + j),
              hist.equity.get? (hist.timestamp.length - min 5 hist.timestamp.length + j),
              hist.profit_loss.get?
                (hist.timestamp.length - min 5 hist.timestamp.length + j))) },
         ?_, ?_, ?_, ?_, ?_⟩
      · simp [portfolioHistoryHandler, hcond, hif]
      · exact hsome _ _ (by rw [heq]; omega)
      · exact hsome _ _ (by rw [heq]; omega)
      · simp [List.length_map, List.length_range]
      · intro p hp
        rw [List.mem_map] at hp
        obtain ⟨j, hj, hpj⟩ := hp
        rw [List.mem_range] at hj
        have hidx : hist.timestamp.length - min 5 hist.timestamp.length + j <
            hist.timestamp.length := by omega
        subst hpj
        exact ⟨hsomeInt _ _ hidx, hsome _ _ (by rw [heq]; omega),
          hsome _ _ (by rw [hpl]; omega)⟩
  · intro hlt
    have hne : hist.timestamp.length ≠ 0 := by
      rcases hlt with h | h <;> omega
    have hcond : (hist.timestamp.length == 0) = false := by
      simp [hne]
    have hdef : historyReadsDefined hist = false := by
      unfold historyReadsDefined
      rcases hlt with h | h
      · have hl : hist.equity.get? (hist.timestamp.length - 1) = none :=
          List.get?_eq_none.mpr (by omega)
        rw [hl]
        simp
      · have hmem : min 5 hist.timestamp.length - 1 ∈
            List.range (min 5 hist.timestamp.length) :=
          List.mem_range.mpr (by omega)
        have hidx : hist.timestamp.length - min 5 hist.timestamp.length +
            (min 5 hist.timestamp.length - 1) = hist.timestamp.length - 1 := by omega
        have hplnone : hist.profit_loss.get? (hist.timestamp.length - 1) = none :=
          List.get?_eq_none.mpr (by omega)
        have hall : ((List.range (min 5 hist.timestamp.length)).all (fun j =>
            (hist.equity.get?
              (hist.timestamp.length - min 5 hist.timestamp.length + j)).isSome &&
            (hist.profit_loss.get?
              (hist.timestamp.length - min 5 hist.timestamp.length + j)).isSome)) = false := by
          apply Bool.eq_false_iff.mpr
          intro htrue
          have hj := List.all_eq_true.mp htrue _ hmem
          simp only [Bool.and_eq_true] at hj
          rw [hidx, hplnone] at hj
          simp at hj
        rw [hall]
        simp
    simp [portfolioHistoryHandler, hcond, hdef]

/-- Claim C8 witness (for the amended claim): the aligned one-point payload
reports without error, while a payload with empty equity/profit_loss
arrays under two timestamps hits the TypeError path and yields an error
result. -/
theorem c8_amended_witness :
    (portfolioHistoryHandler histAligned).2 = false ∧
    portfolioHistoryHandler ⟨[1, 2], [], [], [], 0⟩ = (HistOutcome.typeError, true) :=
  ⟨((c8_portfolio_history_amended histAligned).1 (by decide) (by decide) (by decide)
      (by decide)).1,
   (c8_portfolio_history_amended ⟨[1, 2], [], [], [], 0⟩).2 (by decide)⟩

/-- Claim C9 counterexample: error results do NOT identify the targeted
mode.  Two concrete failures — a missing-credentials failure and a remote
422 failure — produce results that are literally identical under
`tradingMode = "paper"` and `tradingMode = "live"` (and carry
`isError = true`), so a caller cannot tell from the error result which
mode the failed call was targeted against; the mode label appears only in
success results. -/
theorem c9_counterexample :
    accountHandler render0 ⟨none, none, some "paper"⟩ [] =
      accountHandler render0 ⟨none, none, some "live"⟩ [] ∧
    (accountHandler render0 ⟨none, none, some "paper"⟩ []).isError = true ∧
    accountHandler render0 ⟨some "k", some "s", some "paper"⟩ [⟨422, insufficientQtyBody⟩] =
      accountHandler render0 ⟨some "k", some "s", some "live"⟩ [⟨422, insufficientQtyBody⟩] ∧
    (accountHandler render0 ⟨some "k", some "s", some "paper"⟩
      [⟨422, insufficientQtyBody⟩]).isError = true := by
  refine ⟨?_, ?_, ?_, ?_⟩ <;> decide

/-- Claim C9 (amended): no error result identifies the mode.  Whenever a
handler's result is an error — whatever the failure kind (configuration,
remote, transport) — the result is invariant under changing the configured
trading mode, for the account handler and the cancel-order handler alike:
the catch blocks return `err(e.message)` without the mode label, which is
interpolated only into success-path texts. -/
theorem c9_error_mode_invariant_amended (render : String → String → String)
    (k sk m1 m2 order_id : Option String) (rs : List HttpResponse)
    (h : (accountHandler render ⟨k, sk, m1⟩ rs).isError = true) :
    accountHandler render ⟨k, sk, m1⟩ rs = accountHandler render ⟨k, sk, m2⟩ rs ∧
    cancelOrderHandler ⟨k, sk, m1⟩ order_id rs =
      cancelOrderHandler ⟨k, sk, m2⟩ order_id rs := by
  by_cases hc : (strTruthy k && strTruthy sk) = true
  · cases htr : (tradeRun rs).1 with
    | error m =>
      constructor <;> simp [accountHandler, cancelOrderHandler, getClient, hc, htr]
    | ok v =>
      exfalso
      cases v <;> simp [accountHandler, getClient, hc, htr, ok, err] at h
  · have hcf : (strTruthy k && strTruthy sk) = false := by
      revert hc
      cases strTruthy k && strTruthy sk <;> simp
    constructor <;> simp [accountHandler, cancelOrderHandler, getClient, hcf]

/-- Claim C9 witness (for the amended claim): a remote 500 failure with
credentials configured yields identical error results under paper and
live. -/
theorem c9_amended_witness :
    accountHandler render0 ⟨some "k", some "sk", some "paper"⟩ [⟨500, "oops"⟩] =
      accountHandler render0 ⟨some "k", some "sk", some "live"⟩ [⟨500, "oops"⟩] :=
  (c9_error_mode_invariant_amended render0 (some "k") (some "sk") (some "paper")
    (some "live") none [⟨500, "oops"⟩] (by decide)).1
